import Mathlib

/-!
Shallow embedding of the SOMA street-conditions Streamlit app (src/app.py),
covering the components the specification describes: the media classifier of
the photo-feed pre-processing loop, the Verint portal image fetcher
`fetch_verint_image`, the attachment-filename selector inside it, the
base64 payload decoding, and the feed query `get_soma_data`.

Strings are modelled as lists of characters (`Str`), bytes as natural
numbers below 256, network and parse effects as an explicit environment
(`VerintEnv`, `FeedEnv`) describing the outcome of each external step, and
Python exceptions as `Except PyExc`.  The fetcher also returns the trace of
network calls it attempted, so that claims about which requests are issued
can be stated.
-/

namespace SomaApp

abbrev Str := List Char

abbrev Bytes := List Nat

/-- Python exception kinds that the embedded code can raise. -/
inductive PyExc where
  | timeout
  | connectionError
  | jsonError
  | attributeError
  | binasciiError
  | otherError
  deriving DecidableEq

/-! ### String utilities (models of the Python string operations used) -/

/-- ASCII lower-casing of one character, models what `str.lower()` does on
the ASCII range (all inputs in scope are ASCII). -/
def lowerChar (c : Char) : Char :=
  if 'A' ≤ c ∧ c ≤ 'Z' then Char.ofNat (c.toNat + 32) else c

/-- Models Python `s.lower()`. -/
def lowerStr (s : Str) : Str := s.map lowerChar

/-- The whitespace characters stripped by Python `str.strip()` and matched
by the regex class `\s` (ASCII range). -/
def isPyWhitespace (c : Char) : Bool :=
  c = ' ' ∨ c = '\t' ∨ c = '\n' ∨ c = '\r' ∨ c = '\x0b' ∨ c = '\x0c'

/-- Models Python `s.strip()`. -/
def stripStr (s : Str) : Str :=
  ((s.dropWhile isPyWhitespace).reverse.dropWhile isPyWhitespace).reverse

/-- Models the Python substring test `pat in s`. -/
def containsB : Str → Str → Bool
  | [], pat => pat.isPrefixOf []
  | c :: rest, pat => pat.isPrefixOf (c :: rest) || containsB rest pat

/-- Models Python `s.split(sep)` for a one-character separator. -/
def splitOnCharB (sep : Char) : Str → List Str
  | [] => [[]]
  | c :: cs =>
    let r := splitOnCharB sep cs
    if c = sep then [] :: r
    else
      match r with
      | [] => [[c]]
      | h :: t => (c :: h) :: t

/-- Everything after the first occurrence of `sep`; empty when `sep` is
absent.  Models Python `s.split(sep, 1)[1]`-style suffix extraction. -/
def afterFirstChar (sep : Char) : Str → Str
  | [] => []
  | c :: cs => if c = sep then cs else afterFirstChar sep cs

/-! ### URL query parsing (models of `urlparse` and `parse_qs`) -/

/-- The query component of a URL: the part after the first `?` of the part
before the first `#`.  Models `urlparse(url).query` for the URLs in scope. -/
def urlQuery (url : Str) : Str :=
  afterFirstChar '?' (url.takeWhile (fun c => c ≠ '#'))

/-- One `name=value` field of a query string, as `urllib.parse.parse_qsl`
treats it with default options: fields that are empty, have no `=`, or have
an empty value are dropped (`keep_blank_values=False`).  Percent-decoding
and plus-decoding are omitted; the URLs in scope contain neither. -/
def parseQsField (field : Str) : Option (Str × Str) :=
  if field.isEmpty then none
  else if containsB field ['='] then
    let value := afterFirstChar '=' field
    if value.isEmpty then none
    else some (field.takeWhile (fun c => c ≠ '='), value)
  else none

/-- First value bound to a key in an association list. -/
def firstValue : List (Str × Str) → Str → Option Str
  | [], _ => none
  | (k0, v0) :: rest, k => if k0 = k then some v0 else firstValue rest k

/-- Models `parse_qs(query).get(key, [None])[0]`: the first value of `key`
in the query string, with blank values dropped. -/
def parse_qs_first (query : Str) (key : Str) : Option Str :=
  firstValue ((splitOnCharB '&' query).filterMap parseQsField) key

/-! ### Page-scrape pattern matches (models of the two `re.search` calls) -/

/-- `some rest` when `pat` is a prefix of `s`, with `rest` the remainder. -/
def dropLit : Str → Str → Option Str
  | [], s => some s
  | _ :: _, [] => none
  | p :: ps, c :: cs => if p = c then dropLit ps cs else none

/-- Tries to match the regex `"formref"\s*:\s*"([^"]+)"` at the head of
`s`, returning the capture group. -/
def matchFormrefAt (s : Str) : Option Str :=
  match dropLit ("\"formref\"".data) s with
  | none => none
  | some r1 =>
    match r1.dropWhile isPyWhitespace with
    | ':' :: r2 =>
      match r2.dropWhile isPyWhitespace with
      | '"' :: r3 =>
        let content := r3.takeWhile (fun c => c ≠ '"')
        match r3.drop content.length with
        | '"' :: _ => if content.isEmpty then none else some content
        | _ => none
      | _ => none
    | _ => none

/-- Models `re.search(r_formref, html)`: the capture group of the leftmost
match of the formref pattern. -/
def searchFormref : Str → Option Str
  | [] => none
  | c :: rest =>
    match matchFormrefAt (c :: rest) with
    | some g => some g
    | none => searchFormref rest

/-- Tries to match the regex `name="_csrf_token"\s+content="([^"]+)"` at
the head of `s`, returning the capture group. -/
def matchCsrfAt (s : Str) : Option Str :=
  match dropLit ("name=\"_csrf_token\"".data) s with
  | none => none
  | some r1 =>
    if (r1.takeWhile isPyWhitespace).isEmpty then none
    else
      match dropLit ("content=\"".data) (r1.dropWhile isPyWhitespace) with
      | none => none
      | some r2 =>
        let content := r2.takeWhile (fun c => c ≠ '"')
        match r2.drop content.length with
        | '"' :: _ => if content.isEmpty then none else some content
        | _ => none

/-- Models `re.search(r_csrf, html)`: the capture group of the leftmost
match of the CSRF-token pattern. -/
def searchCsrf : Str → Option Str
  | [] => none
  | c :: rest =>
    match matchCsrfAt (c :: rest) with
    | some g => some g
    | none => searchCsrf rest

/-! ### Base64 decoding (model of `base64.b64decode`) -/

/-- The value of a standard base64 alphabet character. -/
def b64charVal (c : Char) : Option Nat :=
  if 'A' ≤ c ∧ c ≤ 'Z' then some (c.toNat - 65)
  else if 'a' ≤ c ∧ c ≤ 'z' then some (c.toNat - 97 + 26)
  else if '0' ≤ c ∧ c ≤ '9' then some (c.toNat - 48 + 52)
  else if c = '+' then some 62
  else if c = '/' then some 63
  else none

/-- The decoding loop of CPython binascii a2b_base64 in its default
non-strict mode (the implementation behind `base64.b64decode`):
characters outside the alphabet are discarded; a padding `=` seen at quad
position 0 or 1 is discarded; a `=` at quad position 3, or a second `=`
at quad position 2, completes the input and decoding stops there, the
rest of the input ignored; a data character after a lone `=` resets the
pad count; bytes are emitted eagerly as each quad fills (accumulated
reversed, reversed back on return).  A partly filled quad left at the end
of the input raises (`none`). -/
def a2b_base64_loop : Str → Nat → Nat → Nat → Bytes → Option Bytes
  | [], quad_pos, _, _, acc =>
    if quad_pos = 0 then some acc.reverse else none
  | c :: rest, quad_pos, pads, prev, acc =>
    if c = '=' then
      if quad_pos = 3 then some acc.reverse
      else if quad_pos = 2 then
        if pads + 1 ≥ 2 then some acc.reverse
        else a2b_base64_loop rest quad_pos (pads + 1) prev acc
      else a2b_base64_loop rest quad_pos pads prev acc
    else
      match b64charVal c with
      | none => a2b_base64_loop rest quad_pos pads prev acc
      | some v =>
        match quad_pos with
        | 0 => a2b_base64_loop rest 1 0 v acc
        | 1 => a2b_base64_loop rest 2 0 v ((prev * 4 + v / 16) :: acc)
        | 2 => a2b_base64_loop rest 3 0 v ((prev % 16 * 16 + v / 4) :: acc)
        | _ => a2b_base64_loop rest 0 0 v ((prev % 4 * 64 + v) :: acc)

/-- Models Python `base64.b64decode(s)` in its default non-strict mode,
returning `none` exactly where Python raises `binascii.Error`. -/
def b64decode (s : Str) : Option Bytes := a2b_base64_loop s 0 0 0 []

/-! ### Attachment filename selection (src/app.py lines 126-139) -/

/-- The map-artifact markers of the filename filter (line 134). -/
def mapMarkers : List Str := ["m.jpg".data, "_map.jpg".data, "_map.jpeg".data]

/-- The photo extensions accepted by the filename filter (line 135). -/
def photoExts : List Str := [".jpg".data, ".jpeg".data, ".png".data]

/-- `any(x in f_lower for x in ...)` of line 134. -/
def hasMapMarker (fLower : Str) : Bool :=
  mapMarkers.any (fun m => containsB fLower m)

/-- `f_lower.endswith(...)` of line 135. -/
def hasPhotoExt (fLower : Str) : Bool :=
  photoExts.any (fun e => e.isSuffixOf fLower)

/-- The filename loop body of lines 130-137, iterating over the
semicolon-split list: strip, skip blanks, skip map-artifact names, select
the first name with a photo extension. -/
def selectLoop : List Str → Option Str
  | [] => none
  | f0 :: rest =>
    let f := stripStr f0
    if f.isEmpty then selectLoop rest
    else if hasMapMarker (lowerStr f) then selectLoop rest
    else if hasPhotoExt (lowerStr f) then some f
    else selectLoop rest

/-- The attachment selector of `fetch_verint_image` (lines 129-139): the
value of `target_filename` after the loop, `none` modelling Python `None`. -/
def select_attachment (filename_str : Str) : Option Str :=
  selectLoop (splitOnCharB ';' filename_str)

/-- The qualification test the loop implements, for a stripped entry: not
blank, no map-artifact marker in the lower-cased form, and a photo
extension at the end of the lower-cased form. -/
def goodFilenameB (f : Str) : Bool :=
  !f.isEmpty && !hasMapMarker (lowerStr f) && hasPhotoExt (lowerStr f)

/-! ### Base64 payload extraction (src/app.py lines 147-149) -/

/-- Lines 148-149: strip the data-URI prefix by `b64_data.split(",")[1]`
when a comma is present, then `base64.b64decode`; `none` models a raised
`binascii.Error`. -/
def decode_txt_file (b64_data : Str) : Option Bytes :=
  let b :=
    if containsB b64_data [','] then (splitOnCharB ',' b64_data).getD 1 []
    else b64_data
  b64decode b

/-! ### Media classification (photo feed pre-processing, lines 216-224) -/

inductive ClassifiedMedia where
  | directImage (url : Str)
  | portalWrapper (url : Str)
  | unusable
  deriving DecidableEq

/-- The extension list of the URL type detection (line 221). -/
def feedImageExts : List Str :=
  [".jpg".data, ".jpeg".data, ".png".data, ".webp".data]

/-- The URL type detection of the pre-processing loop (lines 221-224):
`directImage` when some listed extension occurs in the lower-cased URL
(the URL is then used as the displayable content unchanged),
`portalWrapper` when `"verintcloudservices"` occurs in the URL (the URL is
then passed to `fetch_verint_image`), otherwise unusable (`img_content`
stays `None`). -/
def classify_media_url (url : Str) : ClassifiedMedia :=
  if feedImageExts.any (fun e => containsB (lowerStr url) e) then
    ClassifiedMedia.directImage url
  else if containsB url ("verintcloudservices".data) then
    ClassifiedMedia.portalWrapper url
  else ClassifiedMedia.unusable

/-! ### Feed query `get_soma_data` (src/app.py lines 159-169) -/

/-- The upstream response to the feed request: HTTP status, and the result
of `r.json()` (which can itself raise). -/
structure FeedResponse where
  status : Nat
  body : Except PyExc (List Str)

/-- The behaviour of the network for one feed query: for each limit, either
a raised exception from `requests.get` or a response. -/
structure FeedEnv where
  resp : Nat → Except PyExc FeedResponse

/-- `get_soma_data` (lines 160-169): `requests.get` with no `timeout=` and
no surrounding `try`, then `pd.DataFrame(r.json()) if r.status_code == 200
else pd.DataFrame()`.  A raised exception propagates to the caller; rows
are kept abstract, the empty DataFrame is the empty list. -/
def get_soma_data (env : FeedEnv) (limit : Nat) : Except PyExc (List Str) :=
  match env.resp limit with
  | Except.error e => Except.error e
  | Except.ok r => if r.status = 200 then r.body else Except.ok []

/-! ### The Verint portal fetcher `fetch_verint_image` (lines 70-152) -/

abbrev Headers := List (Str × Str)

/-- Models Python dict assignment `headers[k] = v`: replace the first
binding of `k`, or append one. -/
def setHeader : Headers → Str → Str → Headers
  | [], k, v => [(k, v)]
  | (k0, v0) :: rest, k, v =>
    if k0 = k then (k, v) :: rest else (k0, v0) :: setHeader rest k v

/-- Models Python dict lookup `headers.get(k)`. -/
def getHeader : Headers → Str → Option Str
  | [], _ => none
  | (k0, v0) :: rest, k => if k0 = k then some v0 else getHeader rest k

/-- A minimal model of parsed JSON values, enough for the `.get` chains of
lines 127 and 147. -/
inductive PyVal where
  | str (s : Str)
  | dict (fields : List (Str × PyVal))
  | other

/-- First value bound to a key in a JSON object. -/
def dictLookup : List (Str × PyVal) → Str → Option PyVal
  | [], _ => none
  | (k0, v0) :: rest, k => if k0 = k then some v0 else dictLookup rest k

/-- Models `v.get(k, dflt)`: an `AttributeError` is raised when `v` is not
a dict. -/
def pyDictGet (v : PyVal) (k : Str) (dflt : PyVal) : Except PyExc PyVal :=
  match v with
  | PyVal.dict fields => Except.ok ((dictLookup fields k).getD dflt)
  | _ => Except.error PyExc.attributeError

/-- Using a JSON value as a string (for `.split`, `in`, `b64decode`)
raises when it is not a string. -/
def pyExpectStr (v : PyVal) : Except PyExc Str :=
  match v with
  | PyVal.str s => Except.ok s
  | _ => Except.error PyExc.attributeError

/-- The `User-Agent` value of line 80. -/
def uaValue : Str :=
  ("Mozilla/5.0 (Windows NT 10.0; Win64; x64) AppleWebKit/537.36 " ++
   "(KHTML, like Gecko) Chrome/120.0.0.0 Safari/537.36").data

/-- The initial `headers` dict of lines 79-82. -/
def initialHeaders : Headers :=
  [("User-Agent".data, uaValue),
   ("Referer".data, "https://mobile311.sfgov.org/".data)]

/-- The portal origin set as the `Origin` header (line 107). -/
def verintOrigin : Str :=
  "https://sanfrancisco.form.us.empro.verintcloudservices.com".data

/-- The session-bootstrap endpoint of line 105. -/
def citizenUrl : Str :=
  ("https://sanfrancisco.form.us.empro.verintcloudservices.com" ++
   "/api/citizen?archived=Y&preview=false&locale=en").data

/-- The custom-action API base of line 116. -/
def apiBase : Str :=
  "https://sanfrancisco.form.us.empro.verintcloudservices.com/api/custom".data

/-- The attachment-listing endpoint of line 123. -/
def listActionUrl : Str :=
  apiBase ++
    ("?action=get_attachments_details&actionedby=&loadform=true" ++
     "&access=citizen&locale=en").data

/-- The attachment-download endpoint of line 144. -/
def downloadActionUrl : Str :=
  apiBase ++
    ("?action=download_attachment&actionedby=&loadform=true" ++
     "&access=citizen&locale=en").data

/-- The varying parts of the nested JSON payload of lines 118-121 and 143:
`data.caseid`, `data.formref`, optionally `data.filename`; the fixed
fields (`name="download_attachments"`, blank `email`/`xref` fields) are
constants and are carried by the `name` field for visibility. -/
structure AttachmentPayload where
  name : Str
  caseid : Str
  formref : Str
  filename : Option Str
  deriving DecidableEq

/-- One network request attempted by `fetch_verint_image`, with the
headers (and for POSTs the payload) it was issued with. -/
inductive NetCall where
  | pageGet (url : Str) (headers : Headers)
  | handshakeGet (url : Str) (headers : Headers)
  | listPost (url : Str) (headers : Headers) (payload : AttachmentPayload)
  | downloadPost (url : Str) (headers : Headers) (payload : AttachmentPayload)
  deriving DecidableEq

/-- The response to the wrapper-page GET of line 91. -/
structure PageResponse where
  status : Nat
  text : Str
  finalUrl : Str

/-- The response to the handshake GET of line 110: the value of its
`Authorization` response header, when present. -/
structure HandshakeResponse where
  authorization : Option Str

/-- The response to the download POST of line 144: HTTP status and the
result of `r_image.json()`. -/
structure DownloadResponse where
  status : Nat
  body : Except PyExc PyVal

/-- The behaviour of the network and parsers during one resolution
attempt: for each external step, a raised exception or its result.  For
the listing POST of line 123 the network call and the `r_list.json()`
parse of line 126 are combined into one outcome. -/
structure VerintEnv where
  page : Except PyExc PageResponse
  handshake : Except PyExc HandshakeResponse
  listResp : Except PyExc PyVal
  download : Except PyExc DownloadResponse

/-- The body of the outer `try` of `fetch_verint_image` (lines 77-150),
with exceptions propagating, together with the trace of network calls
attempted.  Normal `return None` paths are `Except.ok none`. -/
def fetch_verint_image_run (env : VerintEnv) (wrapper_url : Str) :
    Except PyExc (Option Bytes) × List NetCall :=
  match parse_qs_first (urlQuery wrapper_url) ("caseid".data) with
  | none => (Except.ok none, [])
  | some url_case_id =>
    let call1 := NetCall.pageGet wrapper_url initialHeaders
    match env.page with
    | Except.error e => (Except.error e, [call1])
    | Except.ok r_page =>
      if r_page.status ≠ 200 then (Except.ok none, [call1])
      else
        match searchFormref r_page.text with
        | none => (Except.ok none, [call1])
        | some formref =>
          let csrf_token := searchCsrf r_page.text
          let h1 := setHeader initialHeaders ("Referer".data) r_page.finalUrl
          let h2 := setHeader h1 ("Origin".data) verintOrigin
          let h3 :=
            match csrf_token with
            | some t => setHeader h2 ("X-CSRF-TOKEN".data) t
            | none => h2
          let call2 := NetCall.handshakeGet citizenUrl h3
          let h4 :=
            match env.handshake with
            | Except.error _ => h3
            | Except.ok hr =>
              match hr.authorization with
              | some a => setHeader h3 ("Authorization".data) a
              | none => h3
          let h5 := setHeader h4 ("Content-Type".data) ("application/json".data)
          let payload : AttachmentPayload :=
            { name := "download_attachments".data, caseid := url_case_id,
              formref := formref, filename := none }
          let call3 := NetCall.listPost listActionUrl h5 payload
          let t3 := [call1, call2, call3]
          match env.listResp with
          | Except.error e => (Except.error e, t3)
          | Except.ok files_data =>
            match pyDictGet files_data ("data".data) (PyVal.dict []) with
            | Except.error e => (Except.error e, t3)
            | Except.ok dataVal =>
              match pyDictGet dataVal ("formdata_filenames".data) (PyVal.str []) with
              | Except.error e => (Except.error e, t3)
              | Except.ok fnVal =>
                match pyExpectStr fnVal with
                | Except.error e => (Except.error e, t3)
                | Except.ok filename_str =>
                  match select_attachment filename_str with
                  | none => (Except.ok none, t3)
                  | some target_filename =>
                    let dlPayload := { payload with filename := some target_filename }
                    let call4 := NetCall.downloadPost downloadActionUrl h5 dlPayload
                    let t4 := [call1, call2, call3, call4]
                    match env.download with
                    | Except.error e => (Except.error e, t4)
                    | Except.ok r_image =>
                      if r_image.status = 200 then
                        match r_image.body with
                        | Except.error e => (Except.error e, t4)
                        | Except.ok j =>
                          match pyDictGet j ("data".data) (PyVal.dict []) with
                          | Except.error e => (Except.error e, t4)
                          | Except.ok dv =>
                            match pyDictGet dv ("txt_file".data) (PyVal.str []) with
                            | Except.error e => (Except.error e, t4)
                            | Except.ok tv =>
                              match pyExpectStr tv with
                              | Except.error e => (Except.error e, t4)
                              | Except.ok b64_data =>
                                match decode_txt_file b64_data with
                                | none => (Except.error PyExc.binasciiError, t4)
                                | some bytes => (Except.ok (some bytes), t4)
                      else (Except.ok none, t4)

/-- `fetch_verint_image` (lines 70-152): the `try` body with the
`except Exception: return None` boundary of line 151 applied, so every
raised exception collapses to `none`. -/
def fetch_verint_image (env : VerintEnv) (wrapper_url : Str) :
    Option Bytes × List NetCall :=
  match fetch_verint_image_run env wrapper_url with
  | (Except.ok v, t) => (v, t)
  | (Except.error _, t) => (none, t)

/-- A custom-action POST (attachment listing or download). -/
def isCustomActionPost : NetCall → Bool
  | NetCall.listPost _ _ _ => true
  | NetCall.downloadPost _ _ _ => true
  | _ => false

/-- An attachment-listing POST issued without an `Authorization` header. -/
def isListPostWithoutAuth : NetCall → Bool
  | NetCall.listPost _ hs _ => (getHeader hs ("Authorization".data)).isNone
  | _ => false

/-- The `Authorization` header value the handshake step yields: `none`
when the handshake raised or carried no such response header. -/
def authOfHandshake (env : VerintEnv) : Option Str :=
  match env.handshake with
  | Except.error _ => none
  | Except.ok hr => hr.authorization

/-! ### Definitions taken from the wording of the specification, for the
claims that compare the code against a spec formula -/

/-- Modelled from the spec: strip any query string from a URL (spec 4.1
step 3). -/
def specStripQuery (url : Str) : Str := url.takeWhile (fun c => c ≠ '?')

/-- Modelled from the spec: the allow-list of image extensions the spec
names in 4.1 step 3. -/
def specImageExts : List Str :=
  [".jpg".data, ".jpeg".data, ".png".data, ".gif".data, ".webp".data, ".bmp".data]

/-- Modelled from the spec: the payload with the prefix up to and
including the first comma stripped, that is everything after the first
comma (spec round-trip property for the base64 payload). -/
def specAfterFirstComma (s : Str) : Str := afterFirstChar ',' s

/-! ### Concrete inputs used to instantiate the claims -/

/-- An environment in which every network step raises a timeout. -/
def envAllTimeout : VerintEnv :=
  { page := Except.error PyExc.timeout, handshake := Except.error PyExc.timeout,
    listResp := Except.error PyExc.timeout, download := Except.error PyExc.timeout }

/-- The wrapper URL of the spec end-to-end scenario, carrying a caseid. -/
def urlWithCase : Str :=
  "https://portal.example-cloud.com/download_attachments?caseid=987".data

/-- A wrapper URL with no caseid parameter at all. -/
def urlNoCaseid : Str :=
  "https://portal.example-cloud.com/download_attachments".data

/-- A portal-host wrapper URL whose caseid parameter has a blank value. -/
def urlBlankCaseid : Str :=
  ("https://sanfrancisco.form.us.empro.verintcloudservices.com" ++
   "/download_attachments?caseid=").data

/-- A portal-host wrapper URL with a query string but no caseid key. -/
def urlOtherParam : Str :=
  ("https://sanfrancisco.form.us.empro.verintcloudservices.com" ++
   "/download_attachments?foo=1").data

/-- A direct-image URL with a query string, from the spec scenarios. -/
def jpgQueryUrl : Str := "https://cdn.example.com/photo.jpg?x=1".data

/-- A URL ending in `.gif`, an extension the spec allow-list names. -/
def gifUrl : Str := "https://cdn.example.com/photo.gif".data

/-- A page whose markup contains no formref literal. -/
def pageNoFormref : PageResponse :=
  { status := 200, text := "<html>no token here</html>".data,
    finalUrl := "https://portal.example-cloud.com/page".data }

/-- An environment whose page load succeeds but yields no formref. -/
def envNoFormref : VerintEnv :=
  { page := Except.ok pageNoFormref, handshake := Except.error PyExc.timeout,
    listResp := Except.error PyExc.timeout, download := Except.error PyExc.timeout }

/-- A page whose markup carries a formref literal. -/
def pageWithFormref : PageResponse :=
  { status := 200,
    text := "<script>var cfg = \x7b\"formref\": \"FRM123\"\x7d;</script>".data,
    finalUrl := "https://portal.example-cloud.com/page".data }

/-- An environment whose page load succeeds with a formref but whose
handshake call raises. -/
def envHandshakeDown : VerintEnv :=
  { page := Except.ok pageWithFormref, handshake := Except.error PyExc.timeout,
    listResp := Except.error PyExc.jsonError, download := Except.error PyExc.timeout }

/-- A feed environment in which the upstream request raises a timeout. -/
def feedEnvTimeout : FeedEnv := { resp := fun _ => Except.error PyExc.timeout }

/-- A feed environment whose upstream request returns HTTP 500. -/
def feedEnv500 : FeedEnv :=
  { resp := fun _ => Except.ok { status := 500, body := Except.ok [] } }

/-- A txt_file payload with two commas whose middle segment and whose
after-first-comma remainder are both decodable base64, to different
bytes. -/
def commaPayload : Str := "p,QUJD,RUZH".data

/-- The base64 payload of the spec round-trip property. -/
def dataUriPayload : Str := "data:image/jpeg;base64,/9j/4AAQSkZJRg==".data

/-! ### Helper lemmas -/

theorem containsB_iff (s pat : Str) : containsB s pat = true ↔ pat <:+: s := by
  induction s with
  | nil =>
    simp [containsB]
  | cons c rest ih =>
    simp [containsB, ih, List.infix_cons_iff]

theorem suffix_contains (s pat : Str) (h : pat.isSuffixOf s = true) :
    containsB s pat = true := by
  rw [containsB_iff]
  exact List.IsSuffix.isInfix ( List.isSuffixOf_iff_suffix.mp h)

theorem contains_of_suffix_stripQuery (url ext : Str)
    (h : ext.isSuffixOf (lowerStr (specStripQuery url)) = true) :
    containsB (lowerStr url) ext = true := by
  rw [containsB_iff]
  have h1 : ext <:+ lowerStr (specStripQuery url) :=
    List.isSuffixOf_iff_suffix.mp h
  have h2 : lowerStr (specStripQuery url) <+: lowerStr url := by
    unfold lowerStr specStripQuery
    exact List.IsPrefix.map lowerChar ( List.takeWhile_prefix _)
  exact List.IsInfix.trans (List.IsSuffix.isInfix h1) (List.IsPrefix.isInfix h2)

theorem selectLoop_eq_find (l : List Str) :
    selectLoop l = (l.map stripStr).find? goodFilenameB := by
  induction l with
  | nil => rfl
  | cons f rest ih =>
    by_cases h1 : (stripStr f).isEmpty
    · have hg : ¬ (goodFilenameB (stripStr f) = true) := by
        simp [goodFilenameB, h1]
      simp [selectLoop, h1, ih, List.find?_cons_of_neg _ hg]
    · by_cases h2 : hasMapMarker (lowerStr (stripStr f)) = true
      · have hg : ¬ (goodFilenameB (stripStr f) = true) := by
          simp [goodFilenameB, h2]
        simp [selectLoop, h1, h2, ih, List.find?_cons_of_neg _ hg]
      · by_cases h3 : hasPhotoExt (lowerStr (stripStr f)) = true
        · have hg : goodFilenameB (stripStr f) = true := by
            simp [goodFilenameB, h1, h2, h3]
          simp [selectLoop, h1, h2, h3, List.find?_cons_of_pos _ hg]
        · have hg : ¬ (goodFilenameB (stripStr f) = true) := by
            simp [goodFilenameB, h3]
          simp [selectLoop, h1, h2, h3, ih, List.find?_cons_of_neg _ hg]

theorem splitOn_ne_nil (sep : Char) (s : Str) : splitOnCharB sep s ≠ [] := by
  cases s with
  | nil => simp [splitOnCharB]
  | cons c cs =>
    simp only [splitOnCharB]
    by_cases h : c = sep
    · simp [h]
    · simp only [h, if_false]
      cases splitOnCharB sep cs <;> simp

theorem splitOn_headD (sep : Char) (s : Str) :
    (splitOnCharB sep s).getD 0 [] = s.takeWhile (fun c => c ≠ sep) := by
  induction s with
  | nil => rfl
  | cons c cs ih =>
    by_cases h : c = sep
    · subst h
      simp [splitOnCharB, List.takeWhile]
    · cases hr : splitOnCharB sep cs with
      | nil => exact absurd hr (splitOn_ne_nil sep cs)
      | cons h0 t0 =>
        rw [hr] at ih
        simp only [List.getD_cons_zero] at ih
        simp [splitOnCharB, h, hr, List.takeWhile, ih]

theorem splitOn_getD_one (sep : Char) (s : Str)
    (h : containsB s [sep] = true) :
    (splitOnCharB sep s).getD 1 [] =
      (afterFirstChar sep s).takeWhile (fun c => c ≠ sep) := by
  induction s with
  | nil => simp [containsB, List.isPrefixOf] at h
  | cons c cs ih =>
    by_cases hc : c = sep
    · subst hc
      simp [splitOnCharB, afterFirstChar]
      simpa using splitOn_headD c cs
    · have h2 : containsB cs [sep] = true := by
        simp [containsB, List.isPrefixOf] at h
        rcases h with h | h
        · exact absurd h.symm hc
        · exact h
      cases hr : splitOnCharB sep cs with
      | nil => exact absurd hr (splitOn_ne_nil sep cs)
      | cons h0 t0 =>
        have ih2 := ih h2
        rw [hr] at ih2
        simp only [splitOnCharB, hc, if_false, hr]
        simp only [afterFirstChar, hc, if_false]
        simpa using ih2

theorem getHeader_setHeader (hs : Headers) (k v k2 : Str) :
    getHeader (setHeader hs k v) k2 =
      if k = k2 then some v else getHeader hs k2 := by
  induction hs with
  | nil =>
    by_cases h : k = k2 <;> simp [setHeader, getHeader, h]
  | cons p rest ih =>
    obtain ⟨k0, v0⟩ := p
    by_cases h0 : k0 = k
    · subst h0
      by_cases h2 : k0 = k2 <;> simp [setHeader, getHeader, h2]
    · by_cases h2 : k0 = k2
      · subst h2
        have hk : ¬ (k = k0) := fun hx => h0 hx.symm
        simp [setHeader, getHeader, h0, hk]
      · simp [setHeader, getHeader, h0, h2, ih]

theorem fetch_keeps_trace (env : VerintEnv) (url : Str) :
    (fetch_verint_image env url).2 = (fetch_verint_image_run env url).2 := by
  cases hr : fetch_verint_image_run env url with
  | mk r t => cases r <;> simp [fetch_verint_image, hr]

theorem ct_ne_auth : ("Content-Type".data) ≠ ("Authorization".data) := by decide

theorem origin_ne_auth : ("Origin".data) ≠ ("Authorization".data) := by decide

theorem csrf_ne_auth : ("X-CSRF-TOKEN".data) ≠ ("Authorization".data) := by decide

theorem referer_ne_auth : ("Referer".data) ≠ ("Authorization".data) := by decide

theorem getHeader_initial_auth :
    getHeader initialHeaders ("Authorization".data) = none := by decide

/-! ### Claims -/

/-- C1: for every input wrapper URL and every behaviour of the
network/parse/decode steps, `fetch_verint_image` never raises past its
boundary: whenever the body (`fetch_verint_image_run`) ends in a raised
exception, the function returns the "no image" result `none` to the
caller, with the same call trace. -/
theorem claim_C1_exception_collapse (env : VerintEnv) (url : Str)
    (e : PyExc) (t : List NetCall)
    (h : fetch_verint_image_run env url = (Except.error e, t)) :
    fetch_verint_image env url = (none, t) := by
  simp [fetch_verint_image, h]

theorem claim_C1_witness :
    fetch_verint_image envAllTimeout urlWithCase =
      (none, [NetCall.pageGet urlWithCase initialHeaders]) :=
  claim_C1_exception_collapse envAllTimeout urlWithCase PyExc.timeout
    [NetCall.pageGet urlWithCase initialHeaders] rfl

/-- C2 counterexample: `gifUrl` ends in `.gif`, an extension on the spec
allow-list, after query stripping and lower-casing, yet the classifier
does not return `directImage` for it (the code tests only
`.jpg .jpeg .png .webp`). -/
theorem claim_C2_counterexample :
    (".gif".data) ∈ specImageExts ∧
    (".gif".data).isSuffixOf (lowerStr (specStripQuery gifUrl)) = true ∧
    classify_media_url gifUrl ≠ ClassifiedMedia.directImage gifUrl := by
  decide

/-- C2 amended: for every media URL that, after stripping any query string
and lower-casing, ends in one of the extensions the code lists
(`.jpg .jpeg .png .webp` — without the `.gif` and `.bmp` of the spec
allow-list), the classifier returns `directImage` carrying the original,
unmodified URL. -/
theorem claim_C2_direct_image (url ext : Str) (hmem : ext ∈ feedImageExts)
    (hsuf : ext.isSuffixOf (lowerStr (specStripQuery url)) = true) :
    classify_media_url url = ClassifiedMedia.directImage url := by
  have hc : containsB (lowerStr url) ext = true :=
    contains_of_suffix_stripQuery url ext hsuf
  have hany : feedImageExts.any (fun e => containsB (lowerStr url) e) = true :=
    List.any_eq_true.mpr ⟨ext, hmem, hc⟩
  simp [classify_media_url, hany]

theorem claim_C2_witness :
    classify_media_url jpgQueryUrl = ClassifiedMedia.directImage jpgQueryUrl :=
  claim_C2_direct_image jpgQueryUrl (".jpg".data) (by decide) (by decide)

/-- C3 counterexample: when the upstream feed request raises (for example
a timeout — the call has no `timeout=` argument and no surrounding
`try`), `get_soma_data` propagates the exception instead of returning the
empty result set. -/
theorem claim_C3_counterexample :
    get_soma_data feedEnvTimeout 400 = Except.error PyExc.timeout ∧
    get_soma_data feedEnvTimeout 400 ≠ Except.ok [] := by
  constructor
  · rfl
  · intro hx
    rw [show get_soma_data feedEnvTimeout 400 = Except.error PyExc.timeout
        from rfl] at hx
    exact Except.noConfusion hx

/-- C3 amended: for every feed query, if the upstream feed request returns
a non-success HTTP status, `get_soma_data` returns the empty result set;
but when the request (or its JSON parsing) raises — the code sets no
timeout and has no exception handler — the exception propagates to the
caller. -/
theorem claim_C3_nonsuccess_empty (env : FeedEnv) (limit : Nat) :
    (∀ r, env.resp limit = Except.ok r → r.status ≠ 200 →
      get_soma_data env limit = Except.ok []) ∧
    (∀ e, env.resp limit = Except.error e →
      get_soma_data env limit = Except.error e) := by
  constructor
  · intro r hr hs
    simp [get_soma_data, hr, hs]
  · intro e he
    simp [get_soma_data, he]

theorem claim_C3_witness : get_soma_data feedEnv500 400 = Except.ok [] :=
  (claim_C3_nonsuccess_empty feedEnv500 400).1
    { status := 500, body := Except.ok [] } rfl (by decide)

/-- C4: the attachment selector returns the first entry of the
semicolon-split list (stripped, blanks skipped) that is non-blank, whose
lower-cased form contains no map-artifact marker, and that ends in
`.jpg`, `.jpeg` or `.png` case-insensitively; `none` models "none".  In
particular `["case123.jpg", "case123_map.jpg"]` selects `"case123.jpg"`,
and a list in which every entry matches a map-artifact marker selects
nothing even when non-empty. -/
theorem claim_C4_selector :
    (∀ s, select_attachment s =
      ((splitOnCharB ';' s).map stripStr).find? goodFilenameB) ∧
    select_attachment ("case123.jpg;case123_map.jpg".data) =
      some ("case123.jpg".data) ∧
    (∀ s, (∀ f ∈ (splitOnCharB ';' s).map stripStr,
        hasMapMarker (lowerStr f) = true) →
      select_attachment s = none) := by
  refine ⟨fun s => selectLoop_eq_find _, by decide, fun s h => ?_⟩
  show selectLoop (splitOnCharB ';' s) = none
  rw [selectLoop_eq_find]
  apply List.find?_eq_none.mpr
  intro f hf
  have hm := h f hf
  simp [goodFilenameB, hm]

theorem claim_C4_witness :
    select_attachment ("a_map.jpg;bm.jpg".data) = none :=
  claim_C4_selector.2.2 ("a_map.jpg;bm.jpg".data) (by decide)

/-- C5 counterexample: for a `txt_file` payload with a second comma, the
code decodes the segment between the first and second comma
(`split(",")[1]`), not everything after the first comma as the claim
states; on `commaPayload` both sides decode successfully, to different
bytes: the code yields the decoding of `QUJD` (`ABC`), while everything
after the first comma decodes to `ABCEFG`. -/
theorem claim_C5_counterexample :
    decode_txt_file commaPayload = some [65, 66, 67] ∧
    b64decode (specAfterFirstComma commaPayload) = some [65, 66, 67, 69, 70, 71] ∧
    decode_txt_file commaPayload ≠ b64decode (specAfterFirstComma commaPayload) := by
  decide

/-- C5 amended: for every payload string containing a comma, the decoded
image bytes equal the base64 decoding of the substring after the first
comma truncated at the next comma if any (Python `split(",")[1]`); for
the spec round-trip payload, which has a single comma, this is exactly
the base64 decoding of everything after the comma. -/
theorem claim_C5_txt_file_decode :
    (∀ s, containsB s [','] = true →
      decode_txt_file s =
        b64decode ((specAfterFirstComma s).takeWhile (fun c => c ≠ ','))) ∧
    decode_txt_file dataUriPayload = b64decode ("/9j/4AAQSkZJRg==".data) := by
  constructor
  · intro s h
    have h1 : decode_txt_file s = b64decode ((splitOnCharB ',' s).getD 1 []) := by
      simp [decode_txt_file, h]
    rw [h1, splitOn_getD_one ',' s h]
    rfl
  · decide

theorem claim_C5_witness :
    decode_txt_file dataUriPayload =
      b64decode ((specAfterFirstComma dataUriPayload).takeWhile (fun c => c ≠ ',')) :=
  claim_C5_txt_file_decode.1 dataUriPayload (by decide)

/-- C6: whenever the loaded page markup contains no formref pattern match,
the resolution yields "no image" and the call trace contains no POST to
the custom-action endpoint (no attachment-listing and no download call is
attempted). -/
theorem claim_C6_no_formref (env : VerintEnv) (url : Str)
    (h : ∀ p, env.page = Except.ok p → searchFormref p.text = none) :
    (fetch_verint_image env url).1 = none ∧
    (fetch_verint_image env url).2.all (fun c => !isCustomActionPost c) = true := by
  cases hq : parse_qs_first (urlQuery url) ("caseid".data) with
  | none => simp [fetch_verint_image, fetch_verint_image_run, hq]
  | some cid =>
    cases hp : env.page with
    | error e =>
      simp [fetch_verint_image, fetch_verint_image_run, hq, hp, isCustomActionPost]
    | ok p =>
      by_cases hs : p.status = 200
      · have hf := h p hp
        simp [fetch_verint_image, fetch_verint_image_run, hq, hp, hs, hf,
          isCustomActionPost]
      · simp [fetch_verint_image, fetch_verint_image_run, hq, hp, hs,
          isCustomActionPost]

theorem claim_C6_witness :
    (fetch_verint_image envNoFormref urlWithCase).1 = none ∧
    (fetch_verint_image envNoFormref urlWithCase).2.all
      (fun c => !isCustomActionPost c) = true :=
  claim_C6_no_formref envNoFormref urlWithCase (by
    intro p hp
    have hp2 : pageNoFormref = p := Except.ok.inj hp
    rw [← hp2]
    decide)

/-- C7: for every URL whose query string yields no caseid value, the
resolver returns `none` with an empty call trace: no network request of
any kind is issued, because the caseid check precedes the first HTTP
request. -/
theorem claim_C7_no_caseid (env : VerintEnv) (url : Str)
    (h : parse_qs_first (urlQuery url) ("caseid".data) = none) :
    fetch_verint_image env url = (none, []) := by
  simp [fetch_verint_image, fetch_verint_image_run, h]

theorem claim_C7_witness :
    fetch_verint_image envAllTimeout urlNoCaseid = (none, []) :=
  claim_C7_no_caseid envAllTimeout urlNoCaseid rfl

/-- C8: when the caseid is present, the page loads with a formref, and
the handshake step fails (raises, or returns no `Authorization` response
header), the failure is non-fatal: the attachment-listing POST is still
attempted, and it carries no `Authorization` header. -/
theorem claim_C8_handshake_nonfatal (env : VerintEnv) (url cid : Str)
    (p : PageResponse) (fr : Str)
    (hq : parse_qs_first (urlQuery url) ("caseid".data) = some cid)
    (hp : env.page = Except.ok p) (hst : p.status = 200)
    (hfr : searchFormref p.text = some fr)
    (hauth : authOfHandshake env = none) :
    (fetch_verint_image env url).2.any isListPostWithoutAuth = true := by
  rw [fetch_keeps_trace]
  have hne : ¬ (p.status ≠ 200) := by simp [hst]
  rcases hh : env.handshake with e | hr
  · simp only [fetch_verint_image_run, hq, hp, hfr, hh, if_neg hne]
    rcases hcs : searchCsrf p.text with _ | tok
    · have hk : getHeader
          (setHeader
            (setHeader (setHeader initialHeaders ("Referer".data) p.finalUrl)
              ("Origin".data) verintOrigin)
            ("Content-Type".data) ("application/json".data))
          ("Authorization".data) = none := by
        rw [getHeader_setHeader, if_neg ct_ne_auth, getHeader_setHeader,
          if_neg origin_ne_auth, getHeader_setHeader, if_neg referer_ne_auth,
          getHeader_initial_auth]
      simp only [hcs]
      repeat' split
      all_goals simp [isListPostWithoutAuth, hk]
    · have hk : getHeader
          (setHeader
            (setHeader
              (setHeader (setHeader initialHeaders ("Referer".data) p.finalUrl)
                ("Origin".data) verintOrigin)
              ("X-CSRF-TOKEN".data) tok)
            ("Content-Type".data) ("application/json".data))
          ("Authorization".data) = none := by
        rw [getHeader_setHeader, if_neg ct_ne_auth, getHeader_setHeader,
          if_neg csrf_ne_auth, getHeader_setHeader, if_neg origin_ne_auth,
          getHeader_setHeader, if_neg referer_ne_auth, getHeader_initial_auth]
      simp only [hcs]
      repeat' split
      all_goals simp [isListPostWithoutAuth, hk]
  · have hra : hr.authorization = none := by
      simpa [authOfHandshake, hh] using hauth
    simp only [fetch_verint_image_run, hq, hp, hfr, hh, hra, if_neg hne]
    rcases hcs : searchCsrf p.text with _ | tok
    · have hk : getHeader
          (setHeader
            (setHeader (setHeader initialHeaders ("Referer".data) p.finalUrl)
              ("Origin".data) verintOrigin)
            ("Content-Type".data) ("application/json".data))
          ("Authorization".data) = none := by
        rw [getHeader_setHeader, if_neg ct_ne_auth, getHeader_setHeader,
          if_neg origin_ne_auth, getHeader_setHeader, if_neg referer_ne_auth,
          getHeader_initial_auth]
      simp only [hcs]
      repeat' split
      all_goals simp [isListPostWithoutAuth, hk]
    · have hk : getHeader
          (setHeader
            (setHeader
              (setHeader (setHeader initialHeaders ("Referer".data) p.finalUrl)
                ("Origin".data) verintOrigin)
              ("X-CSRF-TOKEN".data) tok)
            ("Content-Type".data) ("application/json".data))
          ("Authorization".data) = none := by
        rw [getHeader_setHeader, if_neg ct_ne_auth, getHeader_setHeader,
          if_neg csrf_ne_auth, getHeader_setHeader, if_neg origin_ne_auth,
          getHeader_setHeader, if_neg referer_ne_auth, getHeader_initial_auth]
      simp only [hcs]
      repeat' split
      all_goals simp [isListPostWithoutAuth, hk]

theorem claim_C8_witness :
    (fetch_verint_image envHandshakeDown urlWithCase).2.any
      isListPostWithoutAuth = true :=
  claim_C8_handshake_nonfatal envHandshakeDown urlWithCase ("987".data)
    pageWithFormref ("FRM123".data) (by decide) rfl rfl (by decide) rfl

/-- C9 (implicit): map-artifact markers are matched as substrings of the
lower-cased filename, so no filename whose lower-cased form ends in
`m.jpg` is ever selected — genuine photos such as `room.jpg` or
`team.jpg` included — and a list whose only entries are such filenames
selects nothing. -/
theorem claim_C9_m_jpg_skipped :
    (∀ s f, select_attachment s = some f →
      ("m.jpg".data).isSuffixOf (lowerStr f) = false) ∧
    select_attachment ("room.jpg;team.jpg".data) = none := by
  constructor
  · intro s f hsel
    simp only [select_attachment] at hsel
    rw [selectLoop_eq_find] at hsel
    have hg : goodFilenameB f = true := List.find?_some hsel
    have hnm : hasMapMarker (lowerStr f) = false := by
      rcases Bool.eq_false_or_eq_true (hasMapMarker (lowerStr f)) with hx | hx
      · exfalso
        simp [goodFilenameB, hx] at hg
      · exact hx
    rcases Bool.eq_false_or_eq_true (("m.jpg".data).isSuffixOf (lowerStr f)) with hx | hx
    · exfalso
      have hc : containsB (lowerStr f) ("m.jpg".data) = true :=
        suffix_contains _ _ hx
      simp [hasMapMarker, mapMarkers, hc] at hnm
    · exact hx
  · decide

theorem claim_C9_witness :
    ("m.jpg".data).isSuffixOf (lowerStr ("case123.jpg".data)) = false :=
  claim_C9_m_jpg_skipped.1 ("case123.jpg".data) ("case123.jpg".data) (by decide)

/-- C10 (implicit): a wrapper URL whose caseid parameter has a blank
value is treated exactly like one with no caseid parameter — `parse_qs`
drops blank values — so for every network behaviour the resolution
returns `none` with an empty call trace, before any network call. -/
theorem claim_C10_blank_caseid (env : VerintEnv) :
    fetch_verint_image env urlBlankCaseid = (none, []) ∧
    fetch_verint_image env urlBlankCaseid = fetch_verint_image env urlOtherParam :=
  ⟨rfl, rfl⟩

theorem claim_C10_witness :
    fetch_verint_image envAllTimeout urlBlankCaseid = (none, []) :=
  (claim_C10_blank_caseid envAllTimeout).1

end SomaApp
